import Mathlib

/-!
# Verification of `scripts/validate_model.py`

A shallow embedding of the model-folder validation script: the metadata
loader, the Tier-1 contract validator, the framework-dispatched smoke
tester and the orchestrating `main`, together with theorems settling the
specification claims about them.

Modelling conventions:
* A parsed YAML scalar/value is `YVal`; a parsed YAML document is
  `YamlDoc` (a mapping, a sequence, or a single scalar — `yaml.safe_load`
  can return any of these for well-formed input).
* A Python dict is an association list `List (String × YVal)` with
  first-match lookup.  Mapping keys that are not strings can never equal
  one of the five field-name strings, so they behave exactly like absent
  keys for every operation the script performs; the model therefore uses
  string keys only.
* Filesystem contents are passed in explicitly: a `ModelFolder` records
  the folder's base name, its direct entries matched by `glob` (each with
  a flag saying whether the framework-native deserialization of it
  succeeds), and the state of the `saved_model` subdirectory.
* `sys.exit` codes are `Nat`s; the orchestrator also records which
  components were invoked so that "the smoke test never runs" is a
  statable property.
-/

set_option autoImplicit false

namespace ValidateModel

/-- A parsed YAML value (the payloads `yaml.safe_load` can place inside a
mapping): a string, an integer, a boolean, null, or some other composite
value.  Only `str` satisfies Python's `isinstance(v, str)`. -/
inductive YVal where
  | str (s : String)
  | int (n : Int)
  | bool (b : Bool)
  | null
  | other
  deriving DecidableEq

/-- `isinstance(v, str)` for a parsed YAML value. -/
def YVal.isStr : YVal → Bool
  | .str _ => true
  | _ => false

/-- A top-level document returned by `yaml.safe_load` on well-formed
input: a mapping, a sequence, or a bare scalar. -/
inductive YamlDoc where
  | map (entries : List (String × YVal))
  | seq (items : List YVal)
  | scalar (v : YVal)
  deriving DecidableEq

/-- A Python dict of parsed metadata: field name to value, first match
wins on lookup. -/
abbrev Dict := List (String × YVal)

/-- Dict lookup: `metadata.get(k)` (also decides `k in metadata`, which
holds iff the result is not `none`). -/
def dget (md : Dict) (k : String) : Option YVal :=
  match md with
  | [] => none
  | (k', v) :: rest => if k' = k then some v else dget rest k

/-- The five Tier-1 required fields, in the source's insertion order.
In the source `TIER_1_FIELDS` maps each field to its expected type; the
expected type is `str` for every field, so the model keeps the ordered
key list and fixes the type check to `YVal.isStr`. -/
def TIER_1_FIELDS : List String :=
  ["model_id", "git_hash", "framework", "min_app_version", "required_hardware"]

def VALID_FRAMEWORKS : List String := ["pytorch", "tensorflow", "onnx"]

def VALID_HARDWARE : List String := ["mps", "cpu", "cuda"]

/-- One accumulated Tier-1 error.  Each constructor corresponds to one
`errors.append(...)` line of `validate_tier_1`; the payloads are exactly
the values interpolated into the message (the framework and hardware
messages interpolate only the constant list of valid values). -/
inductive VError where
  /-- `Missing required field: '{field}'` -/
  | missingField (field : String)
  /-- `Field '{field}' must be of type str` -/
  | wrongType (field : String)
  /-- `'model_id' ({modelId}) must match folder name ({folderName})` -/
  | modelIdMismatch (modelId : Option YVal) (folderName : String)
  /-- `'framework' must be one of: [pytorch, tensorflow, onnx]` -/
  | badFramework
  /-- `'required_hardware' must be one of: [mps, cpu, cuda]` -/
  | badHardware
  deriving DecidableEq

/-- The loop body of `validate_tier_1` for one required field:
missing-field error if the key is absent, type error if the value is not
a string, otherwise nothing. -/
def checkField (md : Dict) (field : String) : List VError :=
  match dget md field with
  | none => [VError.missingField field]
  | some v => if v.isStr then [] else [VError.wrongType field]

/-- `metadata.get("model_id") != model_folder_name`: a parsed value
equals the folder-name string iff it is that very string (case-sensitive,
no normalization); `None` and non-string values never compare equal. -/
def modelIdMatches (md : Dict) (folderName : String) : Bool :=
  dget md "model_id" = some (YVal.str folderName)

/-- `metadata.get("framework") in VALID_FRAMEWORKS`: Python list
membership by equality, so only the three exact strings pass. -/
def frameworkValid (md : Dict) : Bool :=
  match dget md "framework" with
  | some (.str s) => VALID_FRAMEWORKS.contains s
  | _ => false

/-- `metadata.get("required_hardware") in VALID_HARDWARE`. -/
def hardwareValid (md : Dict) : Bool :=
  match dget md "required_hardware" with
  | some (.str s) => VALID_HARDWARE.contains s
  | _ => false

/-- The full error list accumulated by `validate_tier_1`, in evaluation
order: the five per-field checks (source loop), then the model_id /
folder-name cross-check, then the framework domain check, then the
hardware domain check.  No check short-circuits any other. -/
def tier1Errors (md : Dict) (folderName : String) : List VError :=
  TIER_1_FIELDS.flatMap (checkField md)
    ++ (if modelIdMatches md folderName then []
        else [VError.modelIdMismatch (dget md "model_id") folderName])
    ++ (if frameworkValid md then [] else [VError.badFramework])
    ++ (if hardwareValid md then [] else [VError.badHardware])

/-- `validate_tier_1`: returns `True` (pass) iff no error was
accumulated. -/
def validate_tier_1 (md : Dict) (folderName : String) : Bool :=
  tier1Errors md folderName = []

/-- One directory entry matched by a `glob` pattern of the smoke test.
`loadsOk` abstracts the framework-native deserialization of that entry
(`torch.load(..., map_location="cpu", weights_only=True)` for `.pt` and
`.pth`, `onnx.load` followed by `onnx.checker.check_model` for `.onnx`):
`true` iff it completes without raising. -/
structure MFile where
  name : String
  loadsOk : Bool
  deriving DecidableEq

/-- The model folder as the script observes it: its base name, its direct
entries (`Path.glob` is non-recursive, so only direct children are ever
matched), and the `saved_model` subdirectory — `none` if absent,
`some ok` if present with `ok` abstracting whether
`tf.saved_model.load` succeeds on it. -/
structure ModelFolder where
  name : String
  files : List MFile
  savedModel : Option Bool
  deriving DecidableEq

/-- `name` matches the glob pattern `*.ext`: the file name ends with the
suffix `ext` (with its dot), `*` matching any — possibly empty —
character sequence, as `Path.glob` does. -/
def strEndsWith (name suffix : String) : Bool :=
  name.data.drop (name.data.length - suffix.data.length) == suffix.data

/-- `list(model_path.glob("*.pt")) + list(model_path.glob("*.pth"))`:
the direct entries ending in `.pt`, then those ending in `.pth`. -/
def ptFiles (folder : ModelFolder) : List MFile :=
  folder.files.filter (fun f => strEndsWith f.name ".pt")
    ++ folder.files.filter (fun f => strEndsWith f.name ".pth")

/-- `list(model_path.glob("*.onnx"))`. -/
def onnxFiles (folder : ModelFolder) : List MFile :=
  folder.files.filter (fun f => strEndsWith f.name ".onnx")

/-- The per-file loading loop shared by the pytorch and onnx branches:
files are deserialized in order inside one `try`, so the first raising
file aborts the loop and the whole test fails; the loop succeeds iff
every file loads. -/
def loadAll : List MFile → Bool
  | [] => true
  | f :: fs => if f.loadsOk then loadAll fs else false

/-- What `smoke_test_model` returns: the pass/fail boolean, plus whether
the unrecognized-framework fallback printed its non-blocking warning
(`Smoke test not implemented for framework: ...`). -/
structure SmokeResult where
  passed : Bool
  warnedUnknown : Bool
  deriving DecidableEq

/-- `smoke_test_model`: dispatch on the framework string.
* `pytorch`: glob `*.pt` and `*.pth`; fail if none found, otherwise
  `torch.load` each in order, first raise fails the test.
* `tensorflow`: require the `saved_model` subdirectory, fail if absent;
  otherwise `tf.saved_model.load` it, fail on raise.
* `onnx`: glob `*.onnx`; fail if none found, otherwise load and check
  each in order, first raise fails the test.
* anything else: print a warning and pass. -/
def smoke_test_model (folder : ModelFolder) (framework : String) : SmokeResult :=
  if framework = "pytorch" then
    if ptFiles folder = [] then ⟨false, false⟩
    else ⟨loadAll (ptFiles folder), false⟩
  else if framework = "tensorflow" then
    match folder.savedModel with
    | some ok => ⟨ok, false⟩
    | none => ⟨false, false⟩
  else if framework = "onnx" then
    if onnxFiles folder = [] then ⟨false, false⟩
    else ⟨loadAll (onnxFiles folder), false⟩
  else ⟨true, true⟩

/-- `load_metadata`'s input: `none` when `metadata.yaml` does not exist,
`some none` when reading it raises `yaml.YAMLError`, `some (some doc)`
when it parses to the document `doc`. -/
abbrev MetadataSource := Option (Option YamlDoc)

/-- `load_metadata`: `sys.exit(1)` (modelled as `.error 1`) when the file
is absent or unparsable, otherwise the parsed document is returned
exactly as `yaml.safe_load` produced it. -/
def load_metadata (source : MetadataSource) : Except Nat YamlDoc :=
  match source with
  | none => .error 1
  | some none => .error 1
  | some (some doc) => .ok doc

/-- Everything `main` observes: `sys.argv` (program name included), what
the filesystem says about the resolved path, the folder contents, and
the outcome of reading and parsing `metadata.yaml`. -/
structure World where
  argv : List String
  pathExists : Bool
  pathIsDir : Bool
  folder : ModelFolder
  metadataYaml : MetadataSource
  deriving DecidableEq

/-- The outcome of one run of `main`: the process exit code, and whether
`validate_tier_1` and `smoke_test_model` were invoked at all. -/
structure RunResult where
  exitCode : Nat
  validatorRan : Bool
  smokeRan : Bool
  deriving DecidableEq

/-- `metadata.get("framework", "")`, the value `main` hands to
`smoke_test_model`.  A present non-string value is mapped to `""`:
both behave identically in `smoke_test_model` (every equality test
against the three framework names fails, so the fallback branch runs),
and after a Tier-1 pass this case cannot occur anyway. -/
def frameworkOf (md : Dict) : String :=
  match dget md "framework" with
  | some (.str s) => s
  | _ => ""

/-- `main`: usage check, path checks, `load_metadata`,
`validate_tier_1`, `smoke_test_model`, in that order, mapping each
outcome to its exit code.  A document that is not a mapping makes
`validate_tier_1` raise an uncaught `TypeError`/`AttributeError` on its
first dict operation; CPython then terminates the process with status 1,
recorded here as exit code 1 with the validator invoked and the smoke
test never reached. -/
def run (w : World) : RunResult :=
  if w.argv.length ≠ 2 then ⟨1, false, false⟩
  else if !w.pathExists then ⟨1, false, false⟩
  else if !w.pathIsDir then ⟨1, false, false⟩
  else
    match load_metadata w.metadataYaml with
    | .error code => ⟨code, false, false⟩
    | .ok (.map md) =>
      if validate_tier_1 md w.folder.name then
        if (smoke_test_model w.folder (frameworkOf md)).passed then ⟨0, true, true⟩
        else ⟨2, true, true⟩
      else ⟨1, true, false⟩
    | .ok _ => ⟨1, true, false⟩

/-- The process exit code of one run. -/
def mainExit (w : World) : Nat :=
  (run w).exitCode

/-- A usage error: wrong argument count, or a resolved path that does
not exist or is not a directory. -/
def usageError (w : World) : Prop :=
  w.argv.length ≠ 2 ∨ w.pathExists = false ∨ w.pathIsDir = false

/-- A missing or malformed declaration: `metadata.yaml` absent, or
reading it raises `yaml.YAMLError`. -/
def declarationError (w : World) : Prop :=
  w.metadataYaml = none ∨ w.metadataYaml = some none

/-- A Tier-1 contract violation: the declaration parses to a mapping on
which `validate_tier_1` fails against the folder's base name. -/
def tier1Violation (w : World) : Prop :=
  ∃ md, w.metadataYaml = some (some (YamlDoc.map md)) ∧
    validate_tier_1 md w.folder.name = false

/-- All validations pass: the usage checks, the declaration load, the
Tier-1 contract and the smoke test all succeed. -/
def allValidationsPass (w : World) : Prop :=
  w.argv.length = 2 ∧ w.pathExists = true ∧ w.pathIsDir = true ∧
    ∃ md, w.metadataYaml = some (some (YamlDoc.map md)) ∧
      validate_tier_1 md w.folder.name = true ∧
      (smoke_test_model w.folder (frameworkOf md)).passed = true

/-- Artifact corruption detected: the run reaches the smoke test (usage
checks, declaration load and Tier-1 contract all succeed) and the smoke
test fails. -/
def corruptionDetected (w : World) : Prop :=
  w.argv.length = 2 ∧ w.pathExists = true ∧ w.pathIsDir = true ∧
    ∃ md, w.metadataYaml = some (some (YamlDoc.map md)) ∧
      validate_tier_1 md w.folder.name = true ∧
      (smoke_test_model w.folder (frameworkOf md)).passed = false

/-! ## Characterization lemmas -/

theorem mem_checkField (md : Dict) (f : String) (e : VError) :
    e ∈ checkField md f ↔
      (dget md f = none ∧ e = VError.missingField f) ∨
      (∃ v, dget md f = some v ∧ v.isStr = false ∧ e = VError.wrongType f) := by
  unfold checkField
  cases h : dget md f with
  | none => simp
  | some v => cases v <;> simp [YVal.isStr]

theorem mem_tier1Errors (md : Dict) (n : String) (e : VError) :
    e ∈ tier1Errors md n ↔
      (∃ f, f ∈ TIER_1_FIELDS ∧ e ∈ checkField md f) ∨
      (modelIdMatches md n = false ∧ e = VError.modelIdMismatch (dget md "model_id") n) ∨
      (frameworkValid md = false ∧ e = VError.badFramework) ∨
      (hardwareValid md = false ∧ e = VError.badHardware) := by
  unfold tier1Errors
  cases h1 : modelIdMatches md n <;> cases h2 : frameworkValid md <;>
    cases h3 : hardwareValid md <;>
      simp [List.mem_append, List.mem_flatMap]

theorem validate_tier_1_iff (md : Dict) (n : String) :
    validate_tier_1 md n = true ↔ tier1Errors md n = [] := by
  simp [validate_tier_1]

/-! ## Claims about the Tier-1 contract validator -/

/-- C1.  The validator evaluates all Tier-1 checks — the five field
presence/type checks, the model_id/folder-name match, the framework
domain and the required_hardware domain — without short-circuiting:
every single error appears in the accumulated list exactly when its own
check fails, independently of all other checks, and the outcome is pass
iff the accumulated list is empty. -/
theorem tier1_runs_all_checks_and_passes_iff_no_errors (md : Dict) (n : String) :
    TIER_1_FIELDS.length = 5 ∧
    (validate_tier_1 md n = true ↔ tier1Errors md n = []) ∧
    (∀ f, VError.missingField f ∈ tier1Errors md n ↔
      f ∈ TIER_1_FIELDS ∧ dget md f = none) ∧
    (∀ f, VError.wrongType f ∈ tier1Errors md n ↔
      f ∈ TIER_1_FIELDS ∧ ∃ v, dget md f = some v ∧ v.isStr = false) ∧
    (∀ v m, VError.modelIdMismatch v m ∈ tier1Errors md n ↔
      v = dget md "model_id" ∧ m = n ∧ modelIdMatches md n = false) ∧
    (VError.badFramework ∈ tier1Errors md n ↔ frameworkValid md = false) ∧
    (VError.badHardware ∈ tier1Errors md n ↔ hardwareValid md = false) := by
  refine ⟨rfl, validate_tier_1_iff md n, ?_, ?_, ?_, ?_, ?_⟩
  · intro f
    simp only [mem_tier1Errors, mem_checkField]
    constructor
    · rintro (⟨g, hg, ⟨h1, h2⟩ | ⟨v, _, _, h2⟩⟩ | ⟨_, h⟩ | ⟨_, h⟩ | ⟨_, h⟩) <;>
        first
        | (cases h2; exact ⟨hg, h1⟩)
        | cases h2
        | cases h
    · rintro ⟨hf, hnone⟩
      exact Or.inl ⟨f, hf, Or.inl ⟨hnone, rfl⟩⟩
  · intro f
    simp only [mem_tier1Errors, mem_checkField]
    constructor
    · rintro (⟨g, hg, ⟨h1, h2⟩ | ⟨v, hv, hs, h2⟩⟩ | ⟨_, h⟩ | ⟨_, h⟩ | ⟨_, h⟩) <;>
        first
        | (cases h2; exact ⟨hg, v, hv, hs⟩)
        | cases h2
        | cases h
    · rintro ⟨hf, v, hv, hs⟩
      exact Or.inl ⟨f, hf, Or.inr ⟨v, hv, hs, rfl⟩⟩
  · intro v m
    simp only [mem_tier1Errors, mem_checkField]
    constructor
    · rintro (⟨g, _, ⟨_, h2⟩ | ⟨_, _, _, h2⟩⟩ | ⟨hm, h⟩ | ⟨_, h⟩ | ⟨_, h⟩) <;>
        first
        | (cases h; exact ⟨rfl, rfl, hm⟩)
        | cases h2
        | cases h
    · rintro ⟨hv, hm, hmm⟩
      subst hv; subst hm
      exact Or.inr (Or.inl ⟨hmm, rfl⟩)
  · simp only [mem_tier1Errors, mem_checkField]
    constructor
    · rintro (⟨g, _, ⟨_, h2⟩ | ⟨_, _, _, h2⟩⟩ | ⟨_, h⟩ | ⟨hf, _⟩ | ⟨_, h⟩) <;>
        first
        | exact hf
        | cases h2
        | cases h
    · intro hf
      exact Or.inr (Or.inr (Or.inl ⟨hf, trivial⟩))
  · simp only [mem_tier1Errors, mem_checkField]
    constructor
    · rintro (⟨g, _, ⟨_, h2⟩ | ⟨_, _, _, h2⟩⟩ | ⟨_, h⟩ | ⟨_, h⟩ | ⟨hh, _⟩) <;>
        first
        | exact hh
        | cases h2
        | cases h
    · intro hh
      exact Or.inr (Or.inr (Or.inr ⟨hh, trivial⟩))

/-- C4.  Whenever the declared `model_id` value is not exactly the
folder's base name (string comparison: case-sensitive, no
normalization), the accumulated error list contains the mismatch error
carrying both the declared value and the folder name, and the validator
fails. -/
theorem model_id_mismatch_flagged (md : Dict) (n : String)
    (h : dget md "model_id" ≠ some (YVal.str n)) :
    VError.modelIdMismatch (dget md "model_id") n ∈ tier1Errors md n ∧
      validate_tier_1 md n = false := by
  have hmm : modelIdMatches md n = false := by
    simp [modelIdMatches, h]
  have hmem : VError.modelIdMismatch (dget md "model_id") n ∈ tier1Errors md n := by
    rw [mem_tier1Errors]
    exact Or.inr (Or.inl ⟨hmm, rfl⟩)
  refine ⟨hmem, ?_⟩
  cases hv : validate_tier_1 md n with
  | false => rfl
  | true =>
    rw [validate_tier_1_iff md n] at hv
    rw [hv] at hmem
    cases hmem

theorem model_id_mismatch_flagged_witness :
    dget [("model_id", YVal.str "model_b")] "model_id" ≠ some (YVal.str "model_a") ∧
      VError.modelIdMismatch (some (YVal.str "model_b")) "model_a" ∈
        tier1Errors [("model_id", YVal.str "model_b")] "model_a" ∧
      validate_tier_1 [("model_id", YVal.str "model_b")] "model_a" = false :=
  ⟨by decide,
    model_id_mismatch_flagged [("model_id", YVal.str "model_b")] "model_a" (by decide)⟩

/-- C5.  The validator flags `badFramework` whenever the declared
framework is not exactly one of pytorch/tensorflow/onnx, and flags
`badHardware` whenever the declared hardware is not exactly one of
mps/cpu/cuda; in either case the outcome is fail. -/
theorem framework_and_hardware_domains_flagged (md : Dict) (n : String) :
    (frameworkValid md = false →
      VError.badFramework ∈ tier1Errors md n ∧ validate_tier_1 md n = false) ∧
    (hardwareValid md = false →
      VError.badHardware ∈ tier1Errors md n ∧ validate_tier_1 md n = false) := by
  constructor
  · intro hf
    have hmem : VError.badFramework ∈ tier1Errors md n := by
      rw [mem_tier1Errors]
      exact Or.inr (Or.inr (Or.inl ⟨hf, rfl⟩))
    refine ⟨hmem, ?_⟩
    cases hv : validate_tier_1 md n with
    | false => rfl
    | true =>
      rw [validate_tier_1_iff md n] at hv
      rw [hv] at hmem
      cases hmem
  · intro hh
    have hmem : VError.badHardware ∈ tier1Errors md n := by
      rw [mem_tier1Errors]
      exact Or.inr (Or.inr (Or.inr ⟨hh, rfl⟩))
    refine ⟨hmem, ?_⟩
    cases hv : validate_tier_1 md n with
    | false => rfl
    | true =>
      rw [validate_tier_1_iff md n] at hv
      rw [hv] at hmem
      cases hmem

theorem framework_and_hardware_domains_flagged_witness :
    frameworkValid [("framework", YVal.str "jax")] = false ∧
      hardwareValid [("framework", YVal.str "jax")] = false ∧
      VError.badFramework ∈ tier1Errors [("framework", YVal.str "jax")] "m" ∧
      VError.badHardware ∈ tier1Errors [("framework", YVal.str "jax")] "m" ∧
      validate_tier_1 [("framework", YVal.str "jax")] "m" = false := by
  have h := framework_and_hardware_domains_flagged [("framework", YVal.str "jax")] "m"
  have h1 := h.1 (by decide)
  have h2 := h.2 (by decide)
  exact ⟨by decide, by decide, h1.1, h2.1, h1.2⟩

/-- C10.  An absent required field produces more than its missing-field
error, because the later checks evaluate the absent field as `None`
instead of being skipped: an absent `framework` additionally trips the
framework domain check, an absent `required_hardware` additionally trips
the hardware domain check, and an absent `model_id` additionally trips
the folder-name cross-check (whose recorded declared value is `None`). -/
theorem absent_fields_hit_domain_checks (md : Dict) (n : String) :
    (dget md "framework" = none →
      VError.missingField "framework" ∈ tier1Errors md n ∧
        VError.badFramework ∈ tier1Errors md n) ∧
    (dget md "required_hardware" = none →
      VError.missingField "required_hardware" ∈ tier1Errors md n ∧
        VError.badHardware ∈ tier1Errors md n) ∧
    (dget md "model_id" = none →
      VError.missingField "model_id" ∈ tier1Errors md n ∧
        VError.modelIdMismatch none n ∈ tier1Errors md n) := by
  refine ⟨fun hf => ⟨?_, ?_⟩, fun hh => ⟨?_, ?_⟩, fun hm => ⟨?_, ?_⟩⟩
  · rw [mem_tier1Errors]
    exact Or.inl ⟨"framework", by decide, by rw [mem_checkField]; exact Or.inl ⟨hf, rfl⟩⟩
  · rw [mem_tier1Errors]
    refine Or.inr (Or.inr (Or.inl ⟨?_, rfl⟩))
    simp [frameworkValid, hf]
  · rw [mem_tier1Errors]
    exact Or.inl ⟨"required_hardware", by decide,
      by rw [mem_checkField]; exact Or.inl ⟨hh, rfl⟩⟩
  · rw [mem_tier1Errors]
    refine Or.inr (Or.inr (Or.inr ⟨?_, rfl⟩))
    simp [hardwareValid, hh]
  · rw [mem_tier1Errors]
    exact Or.inl ⟨"model_id", by decide, by rw [mem_checkField]; exact Or.inl ⟨hm, rfl⟩⟩
  · rw [mem_tier1Errors]
    refine Or.inr (Or.inl ⟨?_, ?_⟩)
    · simp [modelIdMatches, hm]
    · rw [hm]

theorem absent_fields_hit_domain_checks_witness :
    VError.missingField "framework" ∈ tier1Errors [] "m" ∧
      VError.badFramework ∈ tier1Errors [] "m" ∧
      VError.missingField "required_hardware" ∈ tier1Errors [] "m" ∧
      VError.badHardware ∈ tier1Errors [] "m" ∧
      VError.missingField "model_id" ∈ tier1Errors [] "m" ∧
      VError.modelIdMismatch none "m" ∈ tier1Errors [] "m" := by
  have h := absent_fields_hit_domain_checks [] "m"
  have h1 := h.1 rfl
  have h2 := h.2.1 rfl
  have h3 := h.2.2 rfl
  exact ⟨h1.1, h1.2, h2.1, h2.2, h3.1, h3.2⟩

/-! ## Claims about the smoke tester -/

theorem loadAll_eq_all (fs : List MFile) :
    loadAll fs = fs.all (fun f => f.loadsOk) := by
  induction fs with
  | nil => rfl
  | cons f fs ih =>
    unfold loadAll
    cases h : f.loadsOk <;> simp [h, ih]

theorem known_framework_no_warning (folder : ModelFolder) (fw : String)
    (h : fw ∈ VALID_FRAMEWORKS) :
    (smoke_test_model folder fw).warnedUnknown = false := by
  have h3 : fw = "pytorch" ∨ fw = "tensorflow" ∨ fw = "onnx" := by
    simpa [VALID_FRAMEWORKS] using h
  rcases h3 with h3 | h3 | h3 <;> subst h3 <;> unfold smoke_test_model
  · rw [if_pos rfl]
    split <;> rfl
  · rw [if_neg (by decide), if_pos rfl]
    cases folder.savedModel <;> rfl
  · rw [if_neg (by decide), if_neg (by decide), if_pos rfl]
    split <;> rfl

/-- C3.  The pytorch smoke test enumerates the folder's direct entries
with the `.pt` and `.pth` extensions, fails when none are found, and
otherwise passes iff every found file deserializes; the per-file loop
stops at the first deserialization failure, which fails the whole test
no matter what follows it. -/
theorem pytorch_smoke_characterization (folder : ModelFolder) :
    ((smoke_test_model folder "pytorch").passed = true ↔
      ptFiles folder ≠ [] ∧ ∀ f ∈ ptFiles folder, f.loadsOk = true) ∧
    (∀ f, f ∈ ptFiles folder ↔
      f ∈ folder.files ∧
        (strEndsWith f.name ".pt" = true ∨ strEndsWith f.name ".pth" = true)) ∧
    (∀ pre post (f : MFile), f.loadsOk = false →
      loadAll (pre ++ f :: post) = false) := by
  refine ⟨?_, ?_, ?_⟩
  · unfold smoke_test_model
    rw [if_pos rfl]
    cases hp : ptFiles folder with
    | nil => simp
    | cons g gs =>
      rw [if_neg (by simp)]
      simp [loadAll_eq_all, List.all_eq_true]
  · intro f
    simp [ptFiles, List.mem_append, List.mem_filter]
    tauto
  · intro pre post f h
    simp [loadAll_eq_all, List.all_append, h]

theorem pytorch_smoke_characterization_witness :
    ((⟨"b.pth", false⟩ : MFile).loadsOk = false) ∧
      loadAll ([⟨"a.pt", true⟩] ++ (⟨"b.pth", false⟩ : MFile) :: [⟨"c.pt", true⟩]) = false :=
  ⟨rfl,
    (pytorch_smoke_characterization ⟨"m", [], none⟩).2.2
      [⟨"a.pt", true⟩] [⟨"c.pt", true⟩] ⟨"b.pth", false⟩ rfl⟩

/-- C9.  For any framework string outside the three recognized values,
the smoke tester does not fail: it prints its non-blocking warning and
returns a pass, performing no check of its own on the string. -/
theorem unknown_framework_smoke_passes (folder : ModelFolder) (fw : String)
    (h : fw ∉ VALID_FRAMEWORKS) :
    smoke_test_model folder fw = ⟨true, true⟩ := by
  have h3 : fw ≠ "pytorch" ∧ fw ≠ "tensorflow" ∧ fw ≠ "onnx" := by
    simpa [VALID_FRAMEWORKS] using h
  unfold smoke_test_model
  rw [if_neg h3.1, if_neg h3.2.1, if_neg h3.2.2]

theorem unknown_framework_smoke_passes_witness :
    "jax" ∉ VALID_FRAMEWORKS ∧
      smoke_test_model ⟨"m", [⟨"w.pt", false⟩], none⟩ "jax" = ⟨true, true⟩ :=
  ⟨by decide, unknown_framework_smoke_passes ⟨"m", [⟨"w.pt", false⟩], none⟩ "jax" (by decide)⟩

/-- C8.  After a Tier-1 pass, the framework value the orchestrator hands
to the smoke tester — `metadata.get("framework", "")`, i.e.
`frameworkOf` — is one of the three recognized frameworks, so the smoke
tester's unrecognized-framework fallback (and its warning) is
unreachable in a validated run. -/
theorem validated_framework_reaches_real_branch (md : Dict) (n : String)
    (folder : ModelFolder) (h : validate_tier_1 md n = true) :
    frameworkOf md ∈ VALID_FRAMEWORKS ∧
      (smoke_test_model folder (frameworkOf md)).warnedUnknown = false := by
  have hempty : tier1Errors md n = [] := (validate_tier_1_iff md n).mp h
  have hfv : frameworkValid md = true := by
    cases hf : frameworkValid md with
    | true => rfl
    | false =>
      have hmem : VError.badFramework ∈ tier1Errors md n := by
        rw [mem_tier1Errors]
        exact Or.inr (Or.inr (Or.inl ⟨hf, rfl⟩))
      rw [hempty] at hmem
      cases hmem
  have hin : frameworkOf md ∈ VALID_FRAMEWORKS := by
    unfold frameworkValid at hfv
    unfold frameworkOf
    cases hd : dget md "framework" with
    | none => rw [hd] at hfv; cases hfv
    | some v =>
      cases v <;> rw [hd] at hfv <;> try cases hfv
      exact List.mem_of_elem_eq_true hfv
  exact ⟨hin, known_framework_no_warning folder (frameworkOf md) hin⟩

theorem validated_framework_reaches_real_branch_witness :
    validate_tier_1
        [("model_id", YVal.str "model_a"), ("git_hash", YVal.str "abc123"),
          ("framework", YVal.str "onnx"), ("min_app_version", YVal.str "1.0"),
          ("required_hardware", YVal.str "cpu")] "model_a" = true ∧
      frameworkOf
        [("model_id", YVal.str "model_a"), ("git_hash", YVal.str "abc123"),
          ("framework", YVal.str "onnx"), ("min_app_version", YVal.str "1.0"),
          ("required_hardware", YVal.str "cpu")] ∈ VALID_FRAMEWORKS ∧
      (smoke_test_model ⟨"model_a", [⟨"model_a.onnx", true⟩], none⟩
        (frameworkOf
          [("model_id", YVal.str "model_a"), ("git_hash", YVal.str "abc123"),
            ("framework", YVal.str "onnx"), ("min_app_version", YVal.str "1.0"),
            ("required_hardware", YVal.str "cpu")])).warnedUnknown = false := by
  refine ⟨by decide, ?_⟩
  have h := validated_framework_reaches_real_branch
    [("model_id", YVal.str "model_a"), ("git_hash", YVal.str "abc123"),
      ("framework", YVal.str "onnx"), ("min_app_version", YVal.str "1.0"),
      ("required_hardware", YVal.str "cpu")] "model_a"
    ⟨"model_a", [⟨"model_a.onnx", true⟩], none⟩ (by decide)
  exact ⟨h.1, h.2⟩

/-! ## Claims about the loader and the orchestrator -/

/-- C7 (counterexample).  A declaration file can be well-formed
structured text without the loader returning a field→value mapping: a
bare-scalar document such as `hello` parses successfully, and the loader
returns it unchanged — there is no mapping it equals. -/
theorem loader_may_return_non_mapping :
    ¬ ∃ entries : Dict,
      load_metadata (some (some (YamlDoc.scalar (YVal.str "hello")))) =
        Except.ok (YamlDoc.map entries) := by
  rintro ⟨entries, h⟩
  simp [load_metadata] at h

/-- C7 (amended).  For every declaration file that exists and whose
contents parse as a mapping, the loader returns exactly that
field→value mapping — the value the Contract Validator then operates
on. -/
theorem loader_returns_parsed_mapping (entries : Dict) :
    load_metadata (some (some (YamlDoc.map entries))) =
      Except.ok (YamlDoc.map entries) :=
  rfl

/-- C6.  When `metadata.yaml` is missing or malformed, the process
exits with code 1 and neither the contract validator nor the smoke test
is ever invoked. -/
theorem missing_declaration_aborts_before_validation (w : World)
    (h : declarationError w) :
    mainExit w = 1 ∧ (run w).validatorRan = false ∧ (run w).smokeRan = false := by
  have hm : w.metadataYaml = none ∨ w.metadataYaml = some none := h
  obtain ⟨argv, pe, pd, folder, myaml⟩ := w
  dsimp only at hm
  rcases hm with hm | hm <;> subst hm <;>
    by_cases hA : argv.length = 2 <;> cases pe <;> cases pd <;>
      simp [mainExit, run, load_metadata, hA]

theorem missing_declaration_aborts_before_validation_witness :
    declarationError ⟨["prog", "model_a"], true, true, ⟨"model_a", [], none⟩, none⟩ ∧
      mainExit ⟨["prog", "model_a"], true, true, ⟨"model_a", [], none⟩, none⟩ = 1 ∧
      (run ⟨["prog", "model_a"], true, true, ⟨"model_a", [], none⟩, none⟩).validatorRan = false ∧
      (run ⟨["prog", "model_a"], true, true, ⟨"model_a", [], none⟩, none⟩).smokeRan = false :=
  ⟨Or.inl rfl,
    missing_declaration_aborts_before_validation
      ⟨["prog", "model_a"], true, true, ⟨"model_a", [], none⟩, none⟩ (Or.inl rfl)⟩

/-- C2.  Exit-code mapping of a run: code 0 exactly when every
validation passes; code 1 for a usage error, a missing or malformed
declaration, or a Tier-1 contract violation; and code 2 exactly when the
run reaches the smoke test and it detects corruption — so metadata
problems (1) and bad binaries (2) are distinguishable by exit code
alone. -/
theorem exit_code_mapping (w : World) :
    (mainExit w = 0 ↔ allValidationsPass w) ∧
    (usageError w ∨ declarationError w ∨ tier1Violation w → mainExit w = 1) ∧
    (mainExit w = 2 ↔ corruptionDetected w) := by
  obtain ⟨argv, pe, pd, folder, myaml⟩ := w
  by_cases hA : argv.length = 2
  · cases pe with
    | false =>
      simp [mainExit, run, usageError, declarationError, tier1Violation,
        allValidationsPass, corruptionDetected, load_metadata, hA]
    | true =>
      cases pd with
      | false =>
        simp [mainExit, run, usageError, declarationError, tier1Violation,
          allValidationsPass, corruptionDetected, load_metadata, hA]
      | true =>
        rcases myaml with _ | (_ | (md | its | v))
        · simp [mainExit, run, usageError, declarationError, tier1Violation,
            allValidationsPass, corruptionDetected, load_metadata, hA]
        · simp [mainExit, run, usageError, declarationError, tier1Violation,
            allValidationsPass, corruptionDetected, load_metadata, hA]
        · cases hv : validate_tier_1 md folder.name with
          | false =>
            simp [mainExit, run, usageError, declarationError, tier1Violation,
              allValidationsPass, corruptionDetected, load_metadata, hA, hv]
          | true =>
            cases hs : (smoke_test_model folder (frameworkOf md)).passed with
            | false =>
              simp [mainExit, run, usageError, declarationError, tier1Violation,
                allValidationsPass, corruptionDetected, load_metadata, hA, hv, hs]
            | true =>
              simp [mainExit, run, usageError, declarationError, tier1Violation,
                allValidationsPass, corruptionDetected, load_metadata, hA, hv, hs]
        · simp [mainExit, run, usageError, declarationError, tier1Violation,
            allValidationsPass, corruptionDetected, load_metadata, hA]
        · simp [mainExit, run, usageError, declarationError, tier1Violation,
            allValidationsPass, corruptionDetected, load_metadata, hA]
  · simp [mainExit, run, usageError, declarationError, tier1Violation,
      allValidationsPass, corruptionDetected, load_metadata, hA]

theorem exit_code_mapping_witness :
    mainExit ⟨["prog", "model_a"], true, true,
        ⟨"model_a", [⟨"model_a.onnx", true⟩], none⟩,
        some (some (YamlDoc.map
          [("model_id", YVal.str "model_a"), ("git_hash", YVal.str "abc123"),
            ("framework", YVal.str "onnx"), ("min_app_version", YVal.str "1.0"),
            ("required_hardware", YVal.str "cpu")]))⟩ = 0 ∧
      mainExit ⟨["prog"], true, true, ⟨"model_a", [], none⟩, none⟩ = 1 ∧
      mainExit ⟨["prog", "model_a"], true, true,
        ⟨"model_a", [⟨"model_a.onnx", false⟩], none⟩,
        some (some (YamlDoc.map
          [("model_id", YVal.str "model_a"), ("git_hash", YVal.str "abc123"),
            ("framework", YVal.str "onnx"), ("min_app_version", YVal.str "1.0"),
            ("required_hardware", YVal.str "cpu")]))⟩ = 2 := by
  refine ⟨?_, ?_, ?_⟩
  · exact (exit_code_mapping _).1.mpr
      ⟨rfl, rfl, rfl,
        [("model_id", YVal.str "model_a"), ("git_hash", YVal.str "abc123"),
          ("framework", YVal.str "onnx"), ("min_app_version", YVal.str "1.0"),
          ("required_hardware", YVal.str "cpu")], rfl, by decide, by decide⟩
  · exact (exit_code_mapping _).2.1 (Or.inl (Or.inl (by decide)))
  · exact (exit_code_mapping _).2.2.mpr
      ⟨rfl, rfl, rfl,
        [("model_id", YVal.str "model_a"), ("git_hash", YVal.str "abc123"),
          ("framework", YVal.str "onnx"), ("min_app_version", YVal.str "1.0"),
          ("required_hardware", YVal.str "cpu")], rfl, by decide, by decide⟩

end ValidateModel
